import Mathlib

/-!
Shallow embedding of `sitemap_validator.py` (class `SitemapValidator`).

The network is modelled as an oracle (`World`): `requests.get` on the sitemap
URL, `requests.head` and `requests.get` on leaf URLs.  A raised
`requests.exceptions.RequestException` is modelled as `Except.error cause`
where `cause` is `str(e)`.  XML parsing (`xml.etree.ElementTree.fromstring`
plus the `findall`/`find` calls of `_parse_sitemap`) is modelled by giving the
fetched body either as `malformed msg` (a `ParseError` with message `msg`) or
as the already-extracted element structure `ParsedDoc`: the list of
`<sitemap><loc>` texts and the list of `<url>` child records, each text being
`Option String` (`none` = element missing or `text is None`, `some s` = the
raw text, possibly empty).

Python's unbounded recursion over child sitemaps is modelled with an explicit
fuel parameter; theorems about index documents supply enough fuel explicitly.
-/

namespace SitemapValidator

/-- `self.results` of a `SitemapValidator` instance: the validation report. -/
structure Report where
  valid_urls : Nat
  invalid_urls : Nat
  total_urls : Nat
  errors : List String
  deriving DecidableEq, Repr

/-- The fresh report built in `__init__` (lines 19-24). -/
def initReport : Report :=
  { valid_urls := 0, invalid_urls := 0, total_urls := 0, errors := [] }

/-- One `<url>` element of a urlset, as seen by `_parse_sitemap` lines 88-96:
the text of each of its `<loc>`, `<lastmod>`, `<changefreq>`, `<priority>`
children (`none` when the child element is missing or its `.text` is `None`). -/
structure UrlElem where
  loc : Option String
  lastmod : Option String
  changefreq : Option String
  priority : Option String
  deriving DecidableEq, Repr

/-- A parsed sitemap document: the `findall('.//sm:sitemap')` results (each
reduced to its `<loc>` text) and the `findall('.//sm:url')` results. -/
structure ParsedDoc where
  sitemaps : List (Option String)
  urls : List UrlElem
  deriving DecidableEq, Repr

/-- Body of a fetched document: either malformed XML (`ET.fromstring` raises
`ParseError` with message `msg`) or a well-formed parsed document. -/
inductive XmlBody where
  | malformed (msg : String)
  | wellFormed (doc : ParsedDoc)
  deriving DecidableEq, Repr

/-- A `requests` response for the sitemap fetch (status code, `Content-Type`
header, body). -/
structure FetchResponse where
  status : Nat
  contentType : String
  body : XmlBody
  deriving DecidableEq, Repr

/-- The network oracle.  Each function takes the target URL and the
`User-Agent` header value sent with the request (the only header the code
sets, line 18), and returns either the response or the message of a raised
`requests.exceptions.RequestException`. -/
structure World where
  fetch : String → String → Except String FetchResponse
  head : String → String → Except String Nat
  get : String → String → Except String Nat

/-- Default `user_agent` argument of `__init__` (line 14). -/
def defaultUserAgent : String := "SitemapValidator/1.0"

/-! ## `urllib.parse.urlparse` (scheme and netloc only)

`_check_url` only looks at `parsed.scheme` and `parsed.netloc`; we embed the
corresponding fragment of CPython's `urlsplit`: a scheme is split off before
the first `:` when the part before it is a letter followed by
letters/digits/`+`/`-`/`.`; the netloc is present exactly when the remainder
starts with `//`, and extends to the next `/`, `?` or `#`. -/

/-- Characters allowed in a URL scheme after the leading letter. -/
def isSchemeChar (c : Char) : Bool :=
  c.isAlphanum || c = '+' || c = '-' || c = '.'

/-- Split off the scheme: returns `(scheme, rest)` as character lists. -/
def schemeSplit (cs : List Char) : List Char × List Char :=
  match cs.findIdx? (fun c => c = ':') with
  | some i =>
      if 0 < i ∧ (cs.headD ' ').isAlpha ∧ (cs.take i).all isSchemeChar then
        ((cs.take i).map Char.toLower, cs.drop (i + 1))
      else ([], cs)
  | none => ([], cs)

/-- Extract the netloc from what follows the scheme. -/
def netlocSplit (cs : List Char) : List Char :=
  match cs with
  | '/' :: '/' :: rest => rest.takeWhile (fun c => c ≠ '/' ∧ c ≠ '?' ∧ c ≠ '#')
  | _ => []

/-- `urlparse(url).scheme` and `urlparse(url).netloc`. -/
structure UrlParts where
  scheme : String
  netloc : String
  deriving DecidableEq, Repr

/-- The fragment of `urllib.parse.urlparse` used by `_check_url` line 123. -/
def urlparse (url : String) : UrlParts :=
  let (sch, rest) := schemeSplit url.toList
  { scheme := String.mk sch, netloc := String.mk (netlocSplit rest) }

/-- `all([parsed.scheme, parsed.netloc])` of `_check_url` line 124: both the
scheme and the netloc strings are truthy (non-empty). -/
def urlStructOk (url : String) : Bool :=
  !(urlparse url).scheme.isEmpty && !(urlparse url).netloc.isEmpty

/-! ## `_check_url` -/

/-- One HTTP request performed by the validator, with the `User-Agent` used. -/
inductive NetCall where
  | fetchCall (url ua : String)
  | headCall (url ua : String)
  | getCall (url ua : String)
  deriving DecidableEq, Repr

/-- The `User-Agent` a network call was sent with. -/
def NetCall.ua : NetCall → String
  | .fetchCall _ u => u
  | .headCall _ u => u
  | .getCall _ u => u

/-- A parsed sitemap entry (the dict built at `_parse_sitemap` lines 91-96). -/
structure Entry where
  loc : String
  lastmod : Option String
  changefreq : Option String
  priority : Option String
  deriving DecidableEq, Repr

/-- Effect of one `_check_url(url_data)` call on the shared state: the
`is_valid` flag recorded in `_all_processed_urls`, the increments to
`valid_urls`/`invalid_urls`, the error strings appended, and the HTTP
requests issued.  The Python function returns `None` and catches every
`RequestException`, so the model is a total function. -/
structure CheckResult where
  is_valid : Bool
  dValid : Nat
  dInvalid : Nat
  errs : List String
  calls : List NetCall
  deriving DecidableEq, Repr

/-- Classification of a final status code (`_check_url` lines 138-143). -/
def classify (url : String) (status : Nat) (calls : List NetCall) : CheckResult :=
  if 200 ≤ status ∧ status < 300 then
    { is_valid := true, dValid := 1, dInvalid := 0, errs := [], calls := calls }
  else
    { is_valid := false, dValid := 0, dInvalid := 1,
      errs := ["URL returned HTTP " ++ toString status ++ ": " ++ url],
      calls := calls }

/-- `_check_url` (lines 115-149): structural check via `urlparse`, `HEAD`
request, `GET` fallback on status 405/404/403, classification, and the
`except requests.exceptions.RequestException` handler. -/
def check_url (w : World) (ua : String) (e : Entry) : CheckResult :=
  let url := e.loc
  if !urlStructOk url then
    { is_valid := false, dValid := 0, dInvalid := 1,
      errs := ["Invalid URL structure: " ++ url], calls := [] }
  else
    match w.head url ua with
    | .error cause =>
        { is_valid := false, dValid := 0, dInvalid := 1,
          errs := ["Failed to connect to " ++ url ++ ": " ++ cause],
          calls := [.headCall url ua] }
    | .ok s =>
        if s = 405 ∨ s = 404 ∨ s = 403 then
          match w.get url ua with
          | .error cause =>
              { is_valid := false, dValid := 0, dInvalid := 1,
                errs := ["Failed to connect to " ++ url ++ ": " ++ cause],
                calls := [.headCall url ua, .getCall url ua] }
          | .ok s2 => classify url s2 [.headCall url ua, .getCall url ua]
        else classify url s [.headCall url ua]

/-! ## `_parse_sitemap` helpers -/

/-- Python's `str.strip()`: drop leading and trailing whitespace.  (Written
over character lists so it evaluates by kernel reduction.) -/
def strip (s : String) : String :=
  String.mk (((s.toList.dropWhile Char.isWhitespace).reverse.dropWhile
    Char.isWhitespace).reverse)

/-- `_get_tag_text` (lines 100-103), applied to the found tag's text:
`tag.text.strip() if tag is not None and tag.text else None`. -/
def get_tag_text (t : Option String) : Option String :=
  match t with
  | some s => if s = "" then none else some (strip s)
  | none => none

/-- Loop body of `_parse_sitemap` lines 88-96: a `<url>` element becomes an
entry exactly when its `<loc>` exists with truthy text; the entry's fields
are the stripped `<loc>` text and `_get_tag_text` of the optional tags. -/
def mkUrlEntry (u : UrlElem) : Option Entry :=
  match u.loc with
  | some s =>
      if s = "" then none
      else some { loc := strip s, lastmod := get_tag_text u.lastmod,
                  changefreq := get_tag_text u.changefreq,
                  priority := get_tag_text u.priority }
  | none => none

/-- Entries extracted from a urlset document (lines 87-98). -/
def parse_entries (us : List UrlElem) : List Entry :=
  us.filterMap mkUrlEntry

/-- Child sitemap locations an index document recurses on (lines 69-71):
each `<sitemap>` whose `<loc>` exists with truthy text, the raw (unstripped)
text, in document order. -/
def child_locs (sitemaps : List (Option String)) : List String :=
  sitemaps.filterMap (fun l =>
    match l with
    | some s => if s = "" then none else some s
    | none => none)

/-- Python's `needle in haystack` on strings, over character lists. -/
def listInfixOf (pat : List Char) : List Char → Bool
  | [] => pat.isPrefixOf ([] : List Char)
  | c :: rest => pat.isPrefixOf (c :: rest) || listInfixOf pat rest

/-- `'xml' in content_type.lower()` (line 40). -/
def ctIsXml (ct : String) : Bool :=
  listInfixOf ("xml".toList) (ct.toList.map Char.toLower)

/-- Error strings appended by the content-type check (lines 39-41): a soft
warning when the `Content-Type` does not mention XML; parsing proceeds. -/
def contentTypeErrs (ct : String) : List String :=
  if ctIsXml ct then [] else ["Sitemap is not XML (Content-Type: " ++ ct ++ ")"]

/-! ## `validate`

`validate` (lines 28-53) fetches the document, records errors for non-200 or
raised fetches, calls `_parse_sitemap`, sets `total_urls = len(urls)` and runs
`_validate_urls`.  For an index document `_parse_sitemap` recursively builds a
child `SitemapValidator(loc.text, self.timeout, self.max_workers)` — note:
the `user_agent` argument is NOT forwarded, so children run with
`defaultUserAgent` — calls its `validate`, sums the three counters into
`self.results` and extends `errors` (lines 69-84), then returns `[]`; back in
`validate` line 44 then assigns `total_urls = len([]) = 0`, discarding the
merged child totals.  The thread pool of `_validate_urls` is modelled by
folding the per-entry `check_url` effects in list order (counter increments
commute; the spec itself treats within-batch error order as a multiset).
Python's recursion is unbounded; `fuel = 0` returns the untouched fresh
report (a modelling artifact — theorems supply sufficient fuel). -/

/-- Aggregate effect of `_validate_urls(urls)` (lines 105-113) on the report:
fold each entry's `check_url` effect into the counters and error list. -/
def validate_urls (w : World) (ua : String) (entries : List Entry)
    (r : Report) : Report :=
  entries.foldl (fun acc e =>
    let c := check_url w ua e
    { acc with valid_urls := acc.valid_urls + c.dValid,
               invalid_urls := acc.invalid_urls + c.dInvalid,
               errors := acc.errors ++ c.errs }) r

/-- Merge loop of `_parse_sitemap` lines 69-83: fold the child reports into
the running results (sum all three counters, extend errors, in document
order). -/
def mergeChildren (children : List Report) (r : Report) : Report :=
  children.foldl (fun acc c =>
    { valid_urls := acc.valid_urls + c.valid_urls,
      invalid_urls := acc.invalid_urls + c.invalid_urls,
      total_urls := acc.total_urls + c.total_urls,
      errors := acc.errors ++ c.errors }) r

/-- Body of one `validate` call (lines 28-53); `recur` is the recursive
`child_validator.validate()` of `_parse_sitemap` line 76, invoked on
`(w, loc.text, defaultUserAgent)` because line 73 builds the child as
`SitemapValidator(loc.text, self.timeout, self.max_workers)` without
forwarding `user_agent`. -/
def validateStep (recur : World → String → String → Report)
    (w : World) (sitemap_url ua : String) : Report :=
  match w.fetch sitemap_url ua with
  | .error cause =>
      { initReport with errors := ["Validation failed: " ++ cause] }
  | .ok resp =>
      if resp.status ≠ 200 then
        { initReport with
          errors := ["Failed to fetch sitemap (HTTP " ++ toString resp.status ++ ")"] }
      else
        let soft := contentTypeErrs resp.contentType
        match resp.body with
        | .malformed msg =>
            { initReport with errors := soft ++ ["Validation failed: " ++ msg] }
        | .wellFormed doc =>
            if doc.sitemaps ≠ [] then
              let children :=
                (child_locs doc.sitemaps).map
                  (fun loc => recur w loc defaultUserAgent)
              let merged := mergeChildren children { initReport with errors := soft }
              { merged with total_urls := 0 }
            else
              let entries := parse_entries doc.urls
              validate_urls w ua entries
                { initReport with errors := soft, total_urls := entries.length }

/-- `validate` (lines 28-53) with explicit fuel for the child-sitemap
recursion (written with `Nat.rec` so that runs on concrete worlds evaluate
by kernel reduction). -/
def validate (fuel : Nat) : World → String → String → Report :=
  Nat.rec (motive := fun _ => World → String → String → Report)
    (fun _ _ _ => initReport)
    (fun _ ih => validateStep ih)
    fuel

/-- Body of the request trace of one `validate` call. -/
def traceStep (recur : World → String → String → List NetCall)
    (w : World) (sitemap_url ua : String) : List NetCall :=
  NetCall.fetchCall sitemap_url ua ::
  match w.fetch sitemap_url ua with
  | .error _ => []
  | .ok resp =>
      if resp.status ≠ 200 then []
      else
        match resp.body with
        | .malformed _ => []
        | .wellFormed doc =>
            if doc.sitemaps ≠ [] then
              ((child_locs doc.sitemaps).map
                (fun loc => recur w loc defaultUserAgent)).flatten
            else
              ((parse_entries doc.urls).map
                (fun e => (check_url w ua e).calls)).flatten

/-- The sequence of HTTP requests a `validate` run performs, each with the
`User-Agent` it was sent with, mirroring the request sites of
`validate`/`_parse_sitemap`/`_check_url` (lines 32, 76, 132, 136). -/
def validate_trace (fuel : Nat) : World → String → String → List NetCall :=
  Nat.rec (motive := fun _ => World → String → String → List NetCall)
    (fun _ _ _ => [])
    (fun _ ih => traceStep ih)
    fuel

/-- Unfolding equation: a run with fuel `n + 1` performs one `validate` body
whose child runs use fuel `n` (and the default user agent). -/
theorem validate_succ (n : Nat) :
    validate (n + 1) = validateStep (validate n) := rfl

/-- A run out of fuel returns the untouched fresh report (artifact). -/
theorem validate_zero (w : World) (url ua : String) :
    validate 0 w url ua = initReport := rfl

/-- Unfolding equation for the request trace. -/
theorem validate_trace_succ (n : Nat) :
    validate_trace (n + 1) = traceStep (validate_trace n) := rfl

/-! ## Derived predicates used in claim statements -/

/-- A `<url>` element that yields an entry: its `<loc>` exists with truthy
(non-empty) text (`_parse_sitemap` line 90). -/
def hasNonEmptyLoc (u : UrlElem) : Bool :=
  match u.loc with
  | some s => !(s == "")
  | none => false

/-- An entry field comes from its source tag text whitespace-trimmed: either
the tag was missing or empty (field `none`), or the field is the stripped
text. -/
def fieldFromSource (src out : Option String) : Prop :=
  (out = none ∧ (src = none ∨ src = some "")) ∨
  ∃ t, src = some t ∧ t ≠ "" ∧ out = some (strip t)

/-! ## Concrete worlds used by witnesses and counterexamples -/

/-- A world whose every request fails (no request should be made). -/
def wNever : World :=
  { fetch := fun _ _ => .error "unused", head := fun _ _ => .error "unused",
    get := fun _ _ => .error "unused" }

/-- An entry with only a location. -/
def entryOf (loc : String) : Entry :=
  { loc := loc, lastmod := none, changefreq := none, priority := none }

/-- A `<url>` element with only a `<loc>` text. -/
def urlElemOf (loc : Option String) : UrlElem :=
  { loc := loc, lastmod := none, changefreq := none, priority := none }

/-- A world answering `HEAD` with 404 and `GET` with 200 everywhere. -/
def wC4 : World :=
  { fetch := fun _ _ => .error "unused",
    head := fun _ _ => .ok 404,
    get := fun _ _ => .ok 200 }

/-- A world whose leaf probes raise a connection error. -/
def wC6 : World :=
  { fetch := fun _ _ => .error "unused",
    head := fun _ _ => .error "connection timed out",
    get := fun _ _ => .error "connection timed out" }

/-- A 200/XML response whose body is the given document. -/
def okXml (doc : ParsedDoc) : Except String FetchResponse :=
  .ok { status := 200, contentType := "application/xml", body := .wellFormed doc }

/-- Sitemap index `http://e.com/sitemap.xml` with one child urlset
`http://e.com/child.xml` holding one live page. -/
def wC1 : World :=
  { fetch := fun url _ =>
      if url = "http://e.com/sitemap.xml" then
        okXml { sitemaps := [some "http://e.com/child.xml"], urls := [] }
      else if url = "http://e.com/child.xml" then
        okXml { sitemaps := [], urls := [urlElemOf (some "http://e.com/page")] }
      else .error "unreachable",
    head := fun _ _ => .ok 200,
    get := fun _ _ => .ok 200 }

/-- Sitemap index with two child urlsets: `a.xml` with two pages (one live,
one returning 500) and `b.xml` with one live page. -/
def wC2 : World :=
  { fetch := fun url _ =>
      if url = "http://e.com/idx.xml" then
        okXml { sitemaps := [some "http://e.com/a.xml", some "http://e.com/b.xml"], urls := [] }
      else if url = "http://e.com/a.xml" then
        okXml { sitemaps := [],
                urls := [urlElemOf (some "http://e.com/p1"), urlElemOf (some "http://e.com/p2")] }
      else if url = "http://e.com/b.xml" then
        okXml { sitemaps := [], urls := [urlElemOf (some "http://e.com/p3")] }
      else .error "unreachable",
    head := fun url _ => if url = "http://e.com/p2" then .ok 500 else .ok 200,
    get := fun _ _ => .ok 200 }

/-- A urlset with three `<url>` elements: a real location, an empty `<loc>`
text, and a missing `<loc>`. -/
def wC3 : World :=
  { fetch := fun _ _ =>
      okXml { sitemaps := [],
              urls := [urlElemOf (some "http://e.com/p1"), urlElemOf (some ""),
                       urlElemOf none] },
    head := fun _ _ => .ok 200,
    get := fun _ _ => .ok 200 }

/-- A 200 response with an HTML content type whose body is malformed XML. -/
def wC7 : World :=
  { fetch := fun _ _ =>
      .ok { status := 200, contentType := "text/xml",
            body := .malformed "syntax error: line 1, column 0" },
    head := fun _ _ => .ok 200,
    get := fun _ _ => .ok 200 }

/-- A world answering the sitemap fetch of `http://e.com/404.xml` with
status 404 and raising a connection error for every other fetch. -/
def wC8 : World :=
  { fetch := fun url _ =>
      if url = "http://e.com/404.xml" then
        .ok { status := 404, contentType := "text/html",
              body := .malformed "irrelevant" }
      else .error "name or service not known",
    head := fun _ _ => .ok 200,
    get := fun _ _ => .ok 200 }

/-! ## General helper lemmas -/

theorem isPrefixOf_append_self (l r : List Char) : l.isPrefixOf (l ++ r) = true := by
  induction l with
  | nil => simp [List.isPrefixOf]
  | cons c cs ih => simp [List.isPrefixOf, ih]

theorem urlHttpMsg_isPrefixOf (g : Nat) (url : String) :
    ("URL returned HTTP " ++ toString g).toList.isPrefixOf
      (("URL returned HTTP " ++ toString g ++ ": " ++ url).toList) = true := by
  have h : ("URL returned HTTP " ++ toString g ++ ": " ++ url).toList =
      ("URL returned HTTP " ++ toString g).toList ++ (": ".toList ++ url.toList) := by
    simp [String.toList, List.append_assoc]
  rw [h]; exact isPrefixOf_append_self _ _

/-! ## Claims about `_check_url` -/

/-- C5: a leaf entry whose location does not parse as an absolute URL with
both a scheme and a netloc is classified invalid with the structural error
message ("Invalid URL structure: <url>", realising the spec's reason
"invalid URL structure"), `invalid_urls` is incremented, and no HTTP request
is issued for that entry. -/
theorem C5_structural_rejection (w : World) (ua : String) (e : Entry)
    (h : urlStructOk e.loc = false) :
    check_url w ua e =
      { is_valid := false, dValid := 0, dInvalid := 1,
        errs := ["Invalid URL structure: " ++ e.loc], calls := [] } := by
  simp [check_url, h]

theorem C5_structural_rejection_witness :
    check_url wNever defaultUserAgent (entryOf "not-a-url") =
      { is_valid := false, dValid := 0, dInvalid := 1,
        errs := ["Invalid URL structure: not-a-url"], calls := [] } :=
  C5_structural_rejection wNever defaultUserAgent (entryOf "not-a-url") (by decide)

/-- C4: when the `HEAD` probe of a structurally valid leaf URL returns a
status in {403, 404, 405}, the check is reissued as a `GET` and that result
is used instead: the trace shows both requests, validity is decided by the
`GET` status being in [200, 300), and on failure the appended error is
"URL returned HTTP <status>: <url>" (whose prefix is the spec's reason
"URL returned HTTP <status>").  The 404-HEAD/200-GET instance of the claim
is the witness below. -/
theorem C4_head_get_fallback (w : World) (ua : String) (e : Entry) (s g : Nat)
    (hok : urlStructOk e.loc = true)
    (hhead : w.head e.loc ua = .ok s)
    (hs : s = 403 ∨ s = 404 ∨ s = 405)
    (hget : w.get e.loc ua = .ok g) :
    (check_url w ua e).calls = [.headCall e.loc ua, .getCall e.loc ua] ∧
    ((check_url w ua e).is_valid = true ↔ 200 ≤ g ∧ g < 300) ∧
    (¬(200 ≤ g ∧ g < 300) →
      (check_url w ua e).errs = ["URL returned HTTP " ++ toString g ++ ": " ++ e.loc] ∧
      ("URL returned HTTP " ++ toString g).toList.isPrefixOf
        (("URL returned HTTP " ++ toString g ++ ": " ++ e.loc).toList) = true) := by
  have hs' : (s = 405 ∨ s = 404 ∨ s = 403) := by tauto
  refine ⟨?_, ?_, fun h2 => ⟨?_, urlHttpMsg_isPrefixOf g e.loc⟩⟩
  · by_cases h2 : 200 ≤ g ∧ g < 300 <;>
      simp [check_url, hok, hhead, hs', hget, classify, h2]
  · by_cases h2 : 200 ≤ g ∧ g < 300 <;>
      simp [check_url, hok, hhead, hs', hget, classify, h2]
  · simp [check_url, hok, hhead, hs', hget, classify, h2]

theorem C4_head_get_fallback_witness :
    (check_url wC4 defaultUserAgent (entryOf "http://e.com/page")).is_valid = true :=
  ((C4_head_get_fallback wC4 defaultUserAgent (entryOf "http://e.com/page") 404 200
    (by decide) rfl (by tauto) rfl).2.1).mpr (by decide)

/-- C6: `_check_url` is total (the model is a plain function: every Python
exception path is caught, lines 145-147) and every outcome is either valid
with no error, or invalid with exactly one error string appended and
`invalid_urls` incremented; a raised network exception on the `HEAD`, or on
the fallback `GET`, yields the error "Failed to connect to <url>: <cause>"
(the spec's "failed to connect: <cause>" reason). -/
theorem C6_check_never_throws (w : World) (ua : String) (e : Entry) :
    (((check_url w ua e).is_valid = true ∧ (check_url w ua e).dValid = 1 ∧
      (check_url w ua e).dInvalid = 0 ∧ (check_url w ua e).errs = []) ∨
     ((check_url w ua e).is_valid = false ∧ (check_url w ua e).dValid = 0 ∧
      (check_url w ua e).dInvalid = 1 ∧ ∃ m, (check_url w ua e).errs = [m])) ∧
    (∀ cause, urlStructOk e.loc = true → w.head e.loc ua = .error cause →
      (check_url w ua e).errs = ["Failed to connect to " ++ e.loc ++ ": " ++ cause]) ∧
    (∀ s cause, urlStructOk e.loc = true → w.head e.loc ua = .ok s →
      (s = 405 ∨ s = 404 ∨ s = 403) → w.get e.loc ua = .error cause →
      (check_url w ua e).errs = ["Failed to connect to " ++ e.loc ++ ": " ++ cause]) := by
  refine ⟨?_, ?_, ?_⟩
  · by_cases hok : urlStructOk e.loc
    · rcases hhead : w.head e.loc ua with cause | s
      · simp [check_url, hok, hhead]
      · by_cases hs : s = 405 ∨ s = 404 ∨ s = 403
        · rcases hget : w.get e.loc ua with cause | g
          · simp [check_url, hok, hhead, hs, hget]
          · by_cases h2 : 200 ≤ g ∧ g < 300 <;>
              simp [check_url, hok, hhead, hs, hget, classify, h2]
        · by_cases h2 : 200 ≤ s ∧ s < 300 <;>
            simp [check_url, hok, hhead, hs, classify, h2]
    · simp only [Bool.not_eq_true] at hok
      simp [check_url, hok]
  · intro cause hok hhead
    simp [check_url, hok, hhead]
  · intro s cause hok hhead hs hget
    simp [check_url, hok, hhead, hs, hget]

theorem C6_check_never_throws_witness :
    (check_url wC6 defaultUserAgent (entryOf "http://e.com/page")).errs =
      ["Failed to connect to http://e.com/page: connection timed out"] :=
  (C6_check_never_throws wC6 defaultUserAgent (entryOf "http://e.com/page")).2.1
    "connection timed out" (by decide) rfl

/-! ## Structural lemmas about the engine -/

theorem mkUrlEntry_isSome (u : UrlElem) :
    (mkUrlEntry u).isSome = hasNonEmptyLoc u := by
  rcases h : u.loc with _ | s
  · simp [mkUrlEntry, hasNonEmptyLoc, h]
  · by_cases hs : s = "" <;> simp [mkUrlEntry, hasNonEmptyLoc, h, hs]

theorem parse_entries_length (us : List UrlElem) :
    (parse_entries us).length = us.countP hasNonEmptyLoc := by
  induction us with
  | nil => rfl
  | cons u rest ih =>
      rcases h : mkUrlEntry u with _ | e
      · have hn : hasNonEmptyLoc u = false := by
          rw [← mkUrlEntry_isSome, h]; rfl
        simp [parse_entries, List.filterMap_cons, h, List.countP_cons, hn]
        simpa [parse_entries] using ih
      · have hn : hasNonEmptyLoc u = true := by
          rw [← mkUrlEntry_isSome, h]; rfl
        simp [parse_entries, List.filterMap_cons, h, List.countP_cons, hn]
        simpa [parse_entries] using ih

theorem validate_urls_total (w : World) (ua : String) (es : List Entry) (r : Report) :
    (validate_urls w ua es r).total_urls = r.total_urls := by
  induction es generalizing r with
  | nil => rfl
  | cons e rest ih => exact (ih _).trans rfl

theorem mergeChildren_spec (children : List Report) (r : Report) :
    mergeChildren children r =
      { valid_urls := r.valid_urls + (children.map Report.valid_urls).sum,
        invalid_urls := r.invalid_urls + (children.map Report.invalid_urls).sum,
        total_urls := r.total_urls + (children.map Report.total_urls).sum,
        errors := r.errors ++ (children.map Report.errors).flatten } := by
  induction children generalizing r with
  | nil => simp [mergeChildren]
  | cons c cs ih =>
      show mergeChildren cs _ = _
      rw [ih]
      simp [Nat.add_assoc, List.append_assoc]

theorem sum_map_add_counts (l : List Report) :
    (l.map (fun r => r.valid_urls + r.invalid_urls)).sum =
      (l.map Report.valid_urls).sum + (l.map Report.invalid_urls).sum := by
  induction l with
  | nil => rfl
  | cons c cs ih => simp [ih]; omega

theorem flatten_errors_nil (l : List Report) (h : ∀ r ∈ l, r.errors = []) :
    (l.map Report.errors).flatten = [] := by
  induction l with
  | nil => rfl
  | cons c cs ih =>
      simp only [List.map_cons, List.flatten_cons, h c (by simp), List.nil_append]
      exact ih (fun r hr => h r (by simp [hr]))

/-! ## Claims about `validate` -/

/-- C1 is refuted by the code: for a sitemap index whose single child urlset
holds one live URL, the run ends with `valid_urls + invalid_urls = 1` but
`total_urls = 0` and no error at all (in particular no structural parse
failure).  The cause: `_parse_sitemap` merges the child totals into
`self.results` (line 81, under the comment "Merge results") but returns the
empty `urls` list for index documents, and `validate` line 44 then assigns
`total_urls = len(urls) = 0`, discarding the merged child totals — a code
bug (the spec's §8 end-to-end index scenario expects `totalUrls = 4`). -/
theorem C1_index_total_overwritten :
    (validate 2 wC1 "http://e.com/sitemap.xml" defaultUserAgent).errors = [] ∧
    (validate 2 wC1 "http://e.com/sitemap.xml" defaultUserAgent).valid_urls +
      (validate 2 wC1 "http://e.com/sitemap.xml" defaultUserAgent).invalid_urls = 1 ∧
    (validate 2 wC1 "http://e.com/sitemap.xml" defaultUserAgent).total_urls = 0 := by
  decide

/-- C3: validating a well-formed urlset document sets `total_urls` to the
number of `<url>` elements whose `<loc>` has non-empty text. -/
theorem C3_urlset_total (n : Nat) (w : World) (url ua : String)
    (resp : FetchResponse) (doc : ParsedDoc)
    (hf : w.fetch url ua = .ok resp) (h200 : resp.status = 200)
    (hb : resp.body = .wellFormed doc) (hleaf : doc.sitemaps = []) :
    (validate (n + 1) w url ua).total_urls = doc.urls.countP hasNonEmptyLoc := by
  rw [validate_succ]
  simp [validateStep, hf, h200, hb, hleaf, validate_urls_total, parse_entries_length]

theorem C3_urlset_total_witness :
    (validate 1 wC3 "http://e.com/map.xml" defaultUserAgent).total_urls = 1 :=
  (C3_urlset_total 0 wC3 "http://e.com/map.xml" defaultUserAgent _ _
    rfl rfl rfl rfl).trans (by decide)

/-- C7: when the fetched body is malformed XML, `validate` still returns:
all three counters are zero and the error list is the (possible) soft
content-type warning followed by exactly one string carrying the parse
failure ("Validation failed: <ParseError message>", from the `except` at
line 51); exactly one error string references the parse failure. -/
theorem C7_malformed_xml (n : Nat) (w : World) (url ua msg : String)
    (resp : FetchResponse)
    (hf : w.fetch url ua = .ok resp) (h200 : resp.status = 200)
    (hb : resp.body = .malformed msg) :
    validate (n + 1) w url ua =
      { valid_urls := 0, invalid_urls := 0, total_urls := 0,
        errors := contentTypeErrs resp.contentType ++ ["Validation failed: " ++ msg] } ∧
    (validate (n + 1) w url ua).errors.countP
      (fun er => ("Validation failed: ").toList.isPrefixOf er.toList) = 1 := by
  have hmain : validate (n + 1) w url ua =
      { valid_urls := 0, invalid_urls := 0, total_urls := 0,
        errors := contentTypeErrs resp.contentType ++ ["Validation failed: " ++ msg] } := by
    rw [validate_succ]
    simp [validateStep, hf, h200, hb, initReport]
  refine ⟨hmain, ?_⟩
  rw [hmain]
  have hone : (("Validation failed: ").toList.isPrefixOf
      ("Validation failed: " ++ msg).toList) = true := by
    have h : ("Validation failed: " ++ msg).toList =
        ("Validation failed: ").toList ++ msg.toList := rfl
    rw [h]; exact isPrefixOf_append_self _ _
  have hwarn : ∀ ct : String, (("Validation failed: ").toList.isPrefixOf
      ("Sitemap is not XML (Content-Type: " ++ ct ++ ")").toList) = false := by
    intro ct
    have h : ("Sitemap is not XML (Content-Type: " ++ ct ++ ")").toList =
        'S' :: ("itemap is not XML (Content-Type: ".toList ++ (ct.toList ++ ")".toList)) := by
      have h1 : ("Sitemap is not XML (Content-Type: " ++ ct ++ ")").toList =
          ("Sitemap is not XML (Content-Type: ").toList ++ ct.toList ++ ")".toList := rfl
      rw [h1]
      simp [List.append_assoc]
    rw [h]
    have h2 : ("Validation failed: ").toList =
        'V' :: ("alidation failed: ").toList := rfl
    rw [h2]
    simp [List.isPrefixOf]
  unfold contentTypeErrs
  by_cases hct : ctIsXml resp.contentType <;>
    simp only [hct, if_true, if_false, Bool.false_eq_true, List.nil_append,
      List.cons_append, List.countP_cons, List.countP_nil, hone, hwarn,
      if_false, reduceIte, Nat.zero_add]

theorem C7_malformed_xml_witness :
    validate 1 wC7 "http://e.com/map.xml" defaultUserAgent =
      { valid_urls := 0, invalid_urls := 0, total_urls := 0,
        errors := ["Validation failed: syntax error: line 1, column 0"] } :=
  ((C7_malformed_xml 0 wC7 "http://e.com/map.xml" defaultUserAgent
    "syntax error: line 1, column 0" _ rfl rfl rfl).1).trans (by decide)

/-- C8: `validate` always returns a report.  A non-200 response fetching the
sitemap document short-circuits the node with only the fetch error string
and zero counters; a raised fetch exception (fully-unreachable input) is
caught by the `except` at line 51 and likewise returns all-zero counters and
the single error string explaining the failure. -/
theorem C8_fetch_failure_short_circuits (n : Nat) (w : World) (url ua : String) :
    (∀ resp, w.fetch url ua = .ok resp → resp.status ≠ 200 →
      validate (n + 1) w url ua =
        { valid_urls := 0, invalid_urls := 0, total_urls := 0,
          errors := ["Failed to fetch sitemap (HTTP " ++ toString resp.status ++ ")"] }) ∧
    (∀ cause, w.fetch url ua = .error cause →
      validate (n + 1) w url ua =
        { valid_urls := 0, invalid_urls := 0, total_urls := 0,
          errors := ["Validation failed: " ++ cause] }) := by
  constructor
  · intro resp hf hs
    rw [validate_succ]
    simp [validateStep, hf, hs, initReport]
  · intro cause hf
    rw [validate_succ]
    simp [validateStep, hf, initReport]

theorem C8_fetch_failure_short_circuits_witness :
    validate 1 wC8 "http://e.com/404.xml" defaultUserAgent =
      { valid_urls := 0, invalid_urls := 0, total_urls := 0,
        errors := ["Failed to fetch sitemap (HTTP 404)"] } ∧
    validate 1 wC8 "http://unreachable.example" defaultUserAgent =
      { valid_urls := 0, invalid_urls := 0, total_urls := 0,
        errors := ["Validation failed: name or service not known"] } :=
  ⟨(C8_fetch_failure_short_circuits 0 wC8 "http://e.com/404.xml"
      defaultUserAgent).1 _ rfl (by decide),
   (C8_fetch_failure_short_circuits 0 wC8 "http://unreachable.example"
      defaultUserAgent).2 "name or service not known" rfl⟩

/-- C2: for an index document the children are validated one at a time in
document order (the run is literally the merge of the child runs over
`child_locs` in that order, lines 69-83); each child's counters are summed
into the running aggregate and its error sequence concatenated in discovery
order after the soft content-type warning; consequently the aggregate
`valid_urls + invalid_urls` equals the sum of those quantities over the
children, and when the content type mentions XML and no child contributes an
error the error list is empty — no error string is added purely because the
document is an index. -/
theorem C2_index_aggregation (n : Nat) (w : World) (url ua : String)
    (resp : FetchResponse) (doc : ParsedDoc)
    (hf : w.fetch url ua = .ok resp) (h200 : resp.status = 200)
    (hb : resp.body = .wellFormed doc) (hidx : doc.sitemaps ≠ []) :
    (validate (n + 1) w url ua).valid_urls =
      (((child_locs doc.sitemaps).map (fun loc => validate n w loc defaultUserAgent)).map
        Report.valid_urls).sum ∧
    (validate (n + 1) w url ua).invalid_urls =
      (((child_locs doc.sitemaps).map (fun loc => validate n w loc defaultUserAgent)).map
        Report.invalid_urls).sum ∧
    (validate (n + 1) w url ua).valid_urls + (validate (n + 1) w url ua).invalid_urls =
      (((child_locs doc.sitemaps).map (fun loc => validate n w loc defaultUserAgent)).map
        (fun r => r.valid_urls + r.invalid_urls)).sum ∧
    (validate (n + 1) w url ua).errors =
      contentTypeErrs resp.contentType ++
        (((child_locs doc.sitemaps).map (fun loc => validate n w loc defaultUserAgent)).map
          Report.errors).flatten ∧
    (ctIsXml resp.contentType = true →
      (∀ r ∈ (child_locs doc.sitemaps).map (fun loc => validate n w loc defaultUserAgent),
        Report.errors r = []) →
      (validate (n + 1) w url ua).errors = []) := by
  set children :=
    (child_locs doc.sitemaps).map (fun loc => validate n w loc defaultUserAgent) with hC
  have hrun : validate (n + 1) w url ua =
      { valid_urls := (children.map Report.valid_urls).sum,
        invalid_urls := (children.map Report.invalid_urls).sum,
        total_urls := 0,
        errors := contentTypeErrs resp.contentType ++
          (children.map Report.errors).flatten } := by
    rw [validate_succ]
    simp [validateStep, hf, h200, hb, hidx, mergeChildren_spec, initReport, hC]
  refine ⟨by rw [hrun], by rw [hrun], ?_, by rw [hrun], ?_⟩
  · rw [hrun]; exact (sum_map_add_counts children).symm
  · intro hct hall
    rw [hrun]
    simp [contentTypeErrs, hct, flatten_errors_nil children hall]

theorem C2_index_aggregation_witness :
    (validate 2 wC2 "http://e.com/idx.xml" defaultUserAgent).valid_urls +
      (validate 2 wC2 "http://e.com/idx.xml" defaultUserAgent).invalid_urls =
      (((child_locs [some "http://e.com/a.xml", some "http://e.com/b.xml"]).map
        (fun loc => validate 1 wC2 loc defaultUserAgent)).map
        (fun r => r.valid_urls + r.invalid_urls)).sum :=
  (C2_index_aggregation 1 wC2 "http://e.com/idx.xml" defaultUserAgent _ _
    rfl rfl rfl (by decide)).2.2.1

/-! ## Claims about entry extraction (C9) -/

theorem get_tag_text_fieldFromSource (src : Option String) :
    fieldFromSource src (get_tag_text src) := by
  rcases src with _ | t
  · exact Or.inl ⟨rfl, Or.inl rfl⟩
  · by_cases ht : t = ""
    · subst ht; exact Or.inl ⟨by simp [get_tag_text], Or.inr rfl⟩
    · exact Or.inr ⟨t, rfl, ht, by simp [get_tag_text, ht]⟩

/-- C9: a `<loc>` element with empty or missing text produces no entry —
prepending such a `<url>` element leaves the parsed entry list unchanged,
and prepending such a `<sitemap>` element leaves the list of child locations
the index recursion runs over unchanged (no child validation is triggered) —
and every produced entry has whitespace-trimmed text fields: its location is
the stripped `<loc>` text and each optional field is either absent or the
stripped source tag text. -/
theorem C9_empty_loc_skipped (u : UrlElem) (us : List UrlElem)
    (l : Option String) (sm : List (Option String))
    (hu : u.loc = none ∨ u.loc = some "") (hl : l = none ∨ l = some "") :
    parse_entries (u :: us) = parse_entries us ∧
    child_locs (l :: sm) = child_locs sm ∧
    (∀ v e, mkUrlEntry v = some e →
      ∃ s, v.loc = some s ∧ s ≠ "" ∧ e.loc = strip s ∧
        fieldFromSource v.lastmod e.lastmod ∧
        fieldFromSource v.changefreq e.changefreq ∧
        fieldFromSource v.priority e.priority) := by
  refine ⟨?_, ?_, ?_⟩
  · rcases hu with h | h <;>
      simp [parse_entries, List.filterMap_cons, mkUrlEntry, h]
  · rcases hl with h | h <;> simp [child_locs, List.filterMap_cons, h]
  · intro v e he
    rcases hv : v.loc with _ | s
    · simp [mkUrlEntry, hv] at he
    · by_cases hs : s = ""
      · simp [mkUrlEntry, hv, hs] at he
      · rw [mkUrlEntry, hv] at he
        simp only [hs, if_false, reduceIte, Option.some.injEq] at he
        refine ⟨s, rfl, hs, ?_, ?_, ?_, ?_⟩ <;> rw [← he]
        · exact get_tag_text_fieldFromSource v.lastmod
        · exact get_tag_text_fieldFromSource v.changefreq
        · exact get_tag_text_fieldFromSource v.priority

theorem C9_empty_loc_skipped_witness :
    parse_entries [urlElemOf none, urlElemOf (some "http://e.com/x")] =
      parse_entries [urlElemOf (some "http://e.com/x")] ∧
    child_locs [some "", some "http://e.com/y.xml"] =
      child_locs [some "http://e.com/y.xml"] := by
  have h := C9_empty_loc_skipped (urlElemOf none) [urlElemOf (some "http://e.com/x")]
    (some "") [some "http://e.com/y.xml"] (Or.inl rfl) (Or.inr rfl)
  exact ⟨h.1, h.2.1⟩

/-! ## Claims about the user agent of recursive runs (C10) -/

theorem check_url_calls_ua (w : World) (ua : String) (e : Entry) :
    ∀ c ∈ (check_url w ua e).calls, c.ua = ua := by
  intro c hc
  by_cases hok : urlStructOk e.loc
  · rcases hhead : w.head e.loc ua with cause | s
    · simp [check_url, hok, hhead] at hc
      simp [hc, NetCall.ua]
    · by_cases hs : s = 405 ∨ s = 404 ∨ s = 403
      · rcases hget : w.get e.loc ua with cause | g
        · simp [check_url, hok, hhead, hs, hget] at hc
          rcases hc with hc | hc <;> simp [hc, NetCall.ua]
        · by_cases h2 : 200 ≤ g ∧ g < 300 <;>
            simp [check_url, hok, hhead, hs, hget, classify, h2] at hc <;>
            rcases hc with hc | hc <;> simp [hc, NetCall.ua]
      · by_cases h2 : 200 ≤ s ∧ s < 300 <;>
          simp [check_url, hok, hhead, hs, classify, h2] at hc <;>
          simp [hc, NetCall.ua]
  · simp only [Bool.not_eq_true] at hok
    simp [check_url, hok] at hc


theorem validate_trace_ua_default (n : Nat) (w : World) :
    ∀ url, ∀ c ∈ validate_trace n w url defaultUserAgent, c.ua = defaultUserAgent := by
  induction n with
  | zero => intro url c hc; simp [validate_trace] at hc
  | succ m ih =>
      intro url c hc
      rw [validate_trace_succ] at hc
      unfold traceStep at hc
      rcases List.mem_cons.mp hc with h | h
      · subst h; rfl
      · rcases hf : w.fetch url defaultUserAgent with cause | resp
        · rw [hf] at h; simp at h
        · rw [hf] at h
          by_cases hs : resp.status = 200
          · simp only [hs, ne_eq, not_true_eq_false, if_false, reduceIte] at h
            rcases hbody : resp.body with msg | doc
            · rw [hbody] at h; simp at h
            · rw [hbody] at h
              by_cases hidx : doc.sitemaps = []
              · simp only [hidx, ne_eq, not_true_eq_false, if_false, reduceIte] at h
                rcases List.mem_flatten.mp h with ⟨l, hl, hcl⟩
                rcases List.mem_map.mp hl with ⟨e, _, he⟩
                exact check_url_calls_ua w defaultUserAgent e c (he ▸ hcl)
              · simp only [hidx, ne_eq, not_false_eq_true, if_true, reduceIte] at h
                rcases List.mem_flatten.mp h with ⟨l, hl, hcl⟩
                rcases List.mem_map.mp hl with ⟨loc, _, hloc⟩
                exact ih loc c (hloc ▸ hcl)
          · simp only [hs, ne_eq, not_false_eq_true, if_true, reduceIte] at h
            simp at h

/-- C10: for an index document, the recursive child validators are built
without forwarding the configured `user_agent` (`_parse_sitemap` lines
73-75 pass only the sitemap URL, `timeout` and `max_workers`), so the whole
request trace of the run is the top-level fetch carrying the configured
`User-Agent` followed by the child subtree traces run with
`defaultUserAgent` ("SitemapValidator/1.0"); every request below the top
level — child-sitemap fetches and leaf-URL HEAD/GET checks alike — carries
the default `User-Agent`. -/
theorem C10_child_user_agent (n : Nat) (w : World) (url ua : String)
    (resp : FetchResponse) (doc : ParsedDoc)
    (hf : w.fetch url ua = .ok resp) (h200 : resp.status = 200)
    (hb : resp.body = .wellFormed doc) (hidx : doc.sitemaps ≠ []) :
    validate_trace (n + 1) w url ua =
      NetCall.fetchCall url ua ::
        ((child_locs doc.sitemaps).map
          (fun loc => validate_trace n w loc defaultUserAgent)).flatten ∧
    (∀ c ∈ ((child_locs doc.sitemaps).map
        (fun loc => validate_trace n w loc defaultUserAgent)).flatten,
      c.ua = defaultUserAgent) := by
  constructor
  · rw [validate_trace_succ]
    unfold traceStep
    simp [hf, h200, hb, hidx]
  · intro c hc
    rcases List.mem_flatten.mp hc with ⟨l, hl, hcl⟩
    rcases List.mem_map.mp hl with ⟨loc, _, hloc⟩
    exact validate_trace_ua_default n w loc c (hloc ▸ hcl)

theorem C10_child_user_agent_witness :
    validate_trace 2 wC1 "http://e.com/sitemap.xml" "custom-agent" =
      NetCall.fetchCall "http://e.com/sitemap.xml" "custom-agent" ::
        ((child_locs [some "http://e.com/child.xml"]).map
          (fun loc => validate_trace 1 wC1 loc defaultUserAgent)).flatten :=
  (C10_child_user_agent 1 wC1 "http://e.com/sitemap.xml" "custom-agent" _ _
    rfl rfl rfl (by decide)).1

end SitemapValidator
